import Mathlib

/-!
Shallow embedding of `pkg/driver/controller.go` of the aws-ebs-csi-driver
repository: the CSI controller service (CreateVolume, DeleteVolume,
ControllerPublishVolume, ValidateVolumeCapabilities, CreateSnapshot,
DeleteSnapshot, pickAvailabilityZone, response translators), together with
theorems checking the natural-language specification against it.

The backend collaborator (`d.cloud`) is out of scope of the source file; it is
represented by records of result-valued functions mirroring the collaborator
interface of the spec (lookup outcomes as closed sum types).  Constants and
helpers of the repository that live outside the provided source file
(`util.RoundUpBytes`, `util.GiBToBytes`, `cloud.DefaultVolumeSize`, the string
key constants, `ptypes.TimestampProto`) are modelled from the spec and marked
as such in their doc comments.
-/

namespace EbsCsi

/-! ## gRPC status codes and error values -/

/-- The gRPC status codes used by the controller service. -/
inductive Code where
  | InvalidArgument
  | AlreadyExists
  | NotFound
  | Internal
  | Unimplemented
deriving DecidableEq, Repr

/-- An error returned by an RPC handler: either a gRPC `status.Error` carrying
a code (as built by `status.Error(codes.X, msg)` in the source), or a raw Go
error returned without status wrapping (as in `return nil, err`). -/
inductive DriverError where
  | status (code : Code) (msg : String)
  | raw (msg : String)
deriving DecidableEq, Repr

/-! ## Protocol data types (csi.*) -/

/-- Access modes of `csi.VolumeCapability_AccessMode_Mode`. -/
inductive AccessModeEnum where
  | UNKNOWN
  | SINGLE_NODE_WRITER
  | SINGLE_NODE_READER_ONLY
  | MULTI_NODE_READER_ONLY
  | MULTI_NODE_SINGLE_WRITER
  | MULTI_NODE_MULTI_WRITER
deriving DecidableEq, Repr

/-- `csi.VolumeCapability_AccessMode`. -/
structure AccessMode where
  mode : AccessModeEnum
deriving DecidableEq, Repr

/-- `csi.VolumeCapability`: the access-mode message may be absent (nil pointer
in Go); the protobuf getter then yields the `UNKNOWN` default. -/
structure VolumeCapability where
  accessMode : Option AccessMode
deriving DecidableEq, Repr

/-- `cap.AccessMode.GetMode()`: protobuf getter, total on a nil message. -/
def VolumeCapability.getAccessModeMode (c : VolumeCapability) : AccessModeEnum :=
  match c.accessMode with
  | some m => m.mode
  | none => .UNKNOWN

/-- `csi.CapacityRange`; absent fields read as `0` through protobuf getters. -/
structure CapacityRange where
  requiredBytes : Int
  limitBytes : Int
deriving DecidableEq, Repr

/-- `csi.Topology`: a segment map from topology-dimension key to value,
modelled as an association list (first binding wins on lookup). -/
structure Topology where
  segments : List (String × String)
deriving DecidableEq, Repr

/-- `csi.TopologyRequirement`. -/
structure TopologyRequirement where
  requisite : List Topology
  preferred : List Topology
deriving DecidableEq, Repr

/-- Go map read `m[k]` on a `map[string]string`: the zero value `""` when the
key is absent. -/
def mapGet (m : List (String × String)) (k : String) : String :=
  match m.lookup k with
  | some v => v
  | none => ""

/-! ## Repository constants

The string key constants live in `pkg/driver/constants.go` and
`pkg/cloud/cloud.go`, outside the provided source file.  Their exact text is
immaterial to every claim; only their distinctness as keys matters. -/

/-- Modelled from the spec: the topology-zone dimension key under which the
selector and the response translator read/write the placement zone. -/
def TopologyKey : String := "topology.ebs.csi.aws.com/zone"

/-- Modelled from the spec: parameter key of the filesystem-type hint. -/
def FsTypeKey : String := "fsType"

/-- Modelled from the spec: parameter key of the volume class/type. -/
def VolumeTypeKey : String := "type"

/-- Modelled from the spec: parameter key of the IOPS-per-GB figure. -/
def IopsPerGBKey : String := "iopsPerGB"

/-- Modelled from the spec: parameter key of the encryption flag. -/
def EncryptedKey : String := "encrypted"

/-- Modelled from the spec: parameter key of the encryption key identifier. -/
def KmsKeyIdKey : String := "kmsKeyId"

/-- Modelled from the spec: publish-context key of the device handle. -/
def DevicePathKey : String := "devicePath"

/-- Modelled from the spec: the provisioned-IOPS volume class whose creation
requires a parsable IOPS-per-GB parameter (`cloud.VolumeTypeIO1`). -/
def VolumeTypeIO1 : String := "io1"

/-- Modelled from the spec: backend tag key carrying the volume name. -/
def VolumeNameTagKey : String := "CSIVolumeName"

/-- Modelled from the spec: backend tag key carrying the snapshot name. -/
def SnapshotNameTagKey : String := "CSIVolumeSnapshotName"

/-- One GiB in bytes: the backend's allocation granularity. -/
def GiB : Int := 1073741824

/-- Modelled from the spec: `cloud.DefaultVolumeSize`, the fixed default size
used when no capacity range is supplied (the spec fixes only that it is a
constant, not its magnitude). -/
def DefaultVolumeSize : Int := 100 * GiB

/-- Modelled from the spec: `util.RoundUpBytes` rounds a byte count up to the
nearest multiple of the allocation granularity (one GiB). -/
def RoundUpBytes (bytes : Int) : Int :=
  ((bytes + GiB - 1).tdiv GiB) * GiB

/-- Modelled from the spec: `util.BytesToGiB` converts bytes to the backend's
unit, truncating. -/
def BytesToGiB (bytes : Int) : Int := bytes.tdiv GiB

/-- Modelled from the spec: `util.GiBToBytes` converts the backend's unit to
bytes. -/
def GiBToBytes (gib : Int) : Int := gib * GiB

/-! ## Backend records (cloud.Disk, cloud.Snapshot) -/

/-- `cloud.Disk`: the backend volume record, with the fields the controller
reads or writes. -/
structure Disk where
  volumeID : String
  capacityGiB : Int
  availabilityZone : String
  fsType : String
deriving DecidableEq, Repr

/-- `cloud.Snapshot`: the backend snapshot record.  The creation time is
modelled as an integer count of seconds. -/
structure Snapshot where
  snapshotID : String
  sourceVolumeID : String
  size : Int
  creationTime : Int
  readyToUse : Bool
deriving DecidableEq, Repr

/-- `cloud.DiskOptions`: the creation options passed to the backend. -/
structure DiskOptions where
  capacityBytes : Int
  tags : List (String × String)
  volumeType : String
  iopsPerGB : Int
  availabilityZone : String
  encrypted : Bool
  kmsKeyID : String
  snapshotID : String
deriving DecidableEq, Repr

/-- `cloud.SnapshotOptions`. -/
structure SnapshotOptions where
  tags : List (String × String)
deriving DecidableEq, Repr

/-! ## Backend collaborator results

The spec's backend interface returns closed outcome sets
(`disk | not-found | multiple-found | size-mismatch`, etc.); the Go code
receives them as `(value, err)` pairs compared against sentinel errors. -/

/-- Outcome of `cloud.GetDiskByName(name, size)`. -/
inductive GetDiskByNameResult where
  | found (disk : Disk)
  | errNotFound
  | errMultiDisks
  | errDiskExistsDiffSize
  | errOther (msg : String)
deriving DecidableEq, Repr

/-- Outcome of `cloud.GetDiskByID(id)`. -/
inductive GetDiskByIDResult where
  | found (disk : Disk)
  | errNotFound
  | errOther (msg : String)
deriving DecidableEq, Repr

/-- Outcome of `cloud.GetSnapshotByName(name)`. -/
inductive GetSnapshotByNameResult where
  | found (snapshot : Snapshot)
  | errNotFound
  | errOther (msg : String)
deriving DecidableEq, Repr

/-- Outcome of `cloud.DeleteDisk(id)` / `cloud.DeleteSnapshot(id)`. -/
inductive DeleteResult where
  | ok
  | errNotFound
  | errOther (msg : String)
deriving DecidableEq, Repr

/-- Outcome of `cloud.AttachDisk(id, node)`. -/
inductive AttachResult where
  | ok (devicePath : String)
  | errAlreadyExists
  | errOther (msg : String)
deriving DecidableEq, Repr

/-- Modelled from the spec: sentinel text of `cloud.ErrMultiDisks`. -/
def ErrMultiDisksMsg : String := "Multiple disks with same name"

/-- Modelled from the spec: sentinel text of `cloud.ErrDiskExistsDiffSize`. -/
def ErrDiskExistsDiffSizeMsg : String := "disk already exists with different size"

/-- Modelled from the spec: sentinel text of `cloud.ErrAlreadyExists`. -/
def ErrAlreadyExistsMsg : String := "Resource already exists"

/-! ## Capability table and validation -/

/-- `volumeCaps`: the fixed supported access-mode set — `SINGLE_NODE_WRITER`
only, since an EBS volume attaches to a single node at a time. -/
def volumeCaps : List AccessMode :=
  [{ mode := .SINGLE_NODE_WRITER }]

/-- `(d *Driver).isValidVolumeCapabilities`: every requested capability's
access mode must appear in the supported set. -/
def isValidVolumeCapabilities (volCaps : List VolumeCapability) : Bool :=
  let hasSupport := fun (c : VolumeCapability) =>
    volumeCaps.any (fun m => m.mode = c.getAccessModeMode)
  volCaps.all hasSupport

/-! ## Topology selector -/

/-- `pickAvailabilityZone`: selects one zone given a topology requirement;
preferred entries are scanned first, then requisite; empty string if none. -/
def pickAvailabilityZone (requirement : Option TopologyRequirement) : String :=
  match requirement with
  | none => ""
  | some r =>
    match r.preferred.findSome? (fun t => t.segments.lookup TopologyKey) with
    | some zone => zone
    | none =>
      match r.requisite.findSome? (fun t => t.segments.lookup TopologyKey) with
      | some zone => zone
      | none => ""

/-! ## Requests and responses -/

/-- `csi.VolumeContentSource`: the oneof content-source type.  A snapshot
source carries the optional snapshot message (nil in Go when absent); its
snapshot-id getter yields `""` on a nil message, so the id is stored directly
with the option covering the nil message. -/
inductive VolumeContentSource where
  | snapshot (snapshotId : Option String)
  | volume
deriving DecidableEq, Repr

/-- `csi.CreateVolumeRequest` (the fields the handler reads). -/
structure CreateVolumeRequest where
  name : String
  capacityRange : Option CapacityRange
  volumeCapabilities : List VolumeCapability
  parameters : List (String × String)
  accessibilityRequirements : Option TopologyRequirement
  volumeContentSource : Option VolumeContentSource
deriving DecidableEq, Repr

/-- Wire `csi.Volume` as assembled by `newCreateVolumeResponse`. -/
structure CSIVolume where
  volumeId : String
  capacityBytes : Int
  volumeContext : List (String × String)
  accessibleTopology : List Topology
deriving DecidableEq, Repr

/-- `csi.CreateVolumeResponse`. -/
structure CreateVolumeResponse where
  volume : CSIVolume
deriving DecidableEq, Repr

/-- Wire `csi.Snapshot` as assembled by `newCreateSnapshotResponse`.  The
protocol timestamp is modelled by its seconds value. -/
structure CSISnapshot where
  snapshotId : String
  sourceVolumeId : String
  sizeBytes : Int
  creationTime : Int
  readyToUse : Bool
deriving DecidableEq, Repr

/-- `csi.CreateSnapshotResponse`. -/
structure CreateSnapshotResponse where
  snapshot : CSISnapshot
deriving DecidableEq, Repr

/-- `csi.ControllerPublishVolumeResponse`. -/
structure ControllerPublishVolumeResponse where
  publishContext : List (String × String)
deriving DecidableEq, Repr

/-- `csi.ValidateVolumeCapabilitiesResponse`: the confirmation is absent
(`nil`) or carries the confirmed capability list. -/
structure ValidateVolumeCapabilitiesResponse where
  confirmed : Option (List VolumeCapability)
deriving DecidableEq, Repr

/-! ## Response translators -/

/-- `newCreateVolumeResponse`: identifier, capacity converted from GiB to
bytes, a context map carrying the filesystem-type hint, and one accessible
topology entry with the record's zone. -/
def newCreateVolumeResponse (disk : Disk) : CreateVolumeResponse :=
  { volume :=
    { volumeId := disk.volumeID
      capacityBytes := GiBToBytes disk.capacityGiB
      volumeContext := [(FsTypeKey, disk.fsType)]
      accessibleTopology := [{ segments := [(TopologyKey, disk.availabilityZone)] }] } }

/-- Modelled from the spec / the Go protobuf library contract used by the
source (`ptypes.TimestampProto`): converting a time to the protocol timestamp
succeeds exactly when it lies in the protocol's representable range
(years 0001 through 9999); outside it the conversion returns an error. -/
def TimestampProto (seconds : Int) : Except String Int :=
  if -62135596800 ≤ seconds ∧ seconds < 253402300800 then .ok seconds
  else .error "timestamp out of range"

/-- `newCreateSnapshotResponse`: converts the creation timestamp; a conversion
failure is returned as the raw error (`return nil, err`, unwrapped). -/
def newCreateSnapshotResponse (snapshot : Snapshot) :
    Except DriverError CreateSnapshotResponse :=
  match TimestampProto snapshot.creationTime with
  | .error msg => .error (.raw msg)
  | .ok ts =>
    .ok { snapshot :=
      { snapshotId := snapshot.snapshotID
        sourceVolumeId := snapshot.sourceVolumeID
        sizeBytes := snapshot.size
        creationTime := ts
        readyToUse := snapshot.readyToUse } }

/-! ## CreateVolume -/

/-- The capacity-normalization block of `CreateVolume` (lines 57–67): default
size when no range, else round required bytes up and reject when a positive
limit is exceeded. -/
def normalizeCapacity (capRange : Option CapacityRange) : Except DriverError Int :=
  match capRange with
  | none => .ok DefaultVolumeSize
  | some r =>
    let volSizeBytes := RoundUpBytes r.requiredBytes
    let maxVolSize := r.limitBytes
    if maxVolSize > 0 ∧ maxVolSize < volSizeBytes then
      .error (.status .InvalidArgument "After round-up, volume size exceeds the limit specified")
    else
      .ok volSizeBytes

/-- `strconv.Atoi`, modelled as signed decimal parsing. -/
def parseAtoi (s : String) : Option Int := s.toInt?

/-- The backend collaborator surface `CreateVolume` consumes, with explicit
backend state `σ` threaded through creation (lookups are read-only). -/
structure CloudVolumes (σ : Type) where
  getDiskByName : σ → String → Int → GetDiskByNameResult
  createDisk : σ → String → DiskOptions → Except String (Disk × σ)

/-- Result of a `CreateVolume` call, instrumented with whether backend
creation (`d.cloud.CreateDisk`) was invoked. -/
structure CreateVolumeOutcome where
  result : Except DriverError CreateVolumeResponse
  createInvoked : Bool
deriving Repr

/-- The iopsPerGB block of `CreateVolume` (lines 103–109): a provisioned-IOPS
volume class requires a parsable IOPS-per-GB parameter. -/
def parseIopsPerGB (params : List (String × String)) : Except DriverError Int :=
  if mapGet params VolumeTypeKey = VolumeTypeIO1 then
    match parseAtoi (mapGet params IopsPerGBKey) with
    | none => .error (.status .InvalidArgument "Could not parse invalid iopsPerGB")
    | some n => .ok n
  else .ok 0

/-- The volume-content-source block of `CreateVolume` (lines 130–140): only a
snapshot source is supported, and its message must be present; its id is
passed through (`""` when no source is given, matching the zero value of
`opts.SnapshotID`). -/
def parseContentSource (source : Option VolumeContentSource) :
    Except DriverError String :=
  match source with
  | none => .ok ""
  | some (.volume) =>
    .error (.status .InvalidArgument "Unsupported volumeContentSource type")
  | some (.snapshot none) =>
    .error (.status .InvalidArgument
      "Error retrieving snapshot from the volumeContentSource")
  | some (.snapshot (some sid)) => .ok sid

/-- The create path of `CreateVolume` (lines 100–147), reached only when the
by-name lookup reported the volume absent: assemble the disk options and
invoke backend creation; the new record gets the filesystem-type hint from
the request before translation. -/
def createVolumeCreatePath {σ : Type} (cloud : CloudVolumes σ) (st : σ)
    (req : CreateVolumeRequest) (volSizeBytes : Int) (fsType : String) :
    CreateVolumeOutcome × σ :=
  let zone := pickAvailabilityZone req.accessibilityRequirements
  let volumeType := mapGet req.parameters VolumeTypeKey
  match parseIopsPerGB req.parameters with
  | .error e => ({ result := .error e, createInvoked := false }, st)
  | .ok iopsPerGB =>
    let isEncrypted := mapGet req.parameters EncryptedKey = "true"
    let kmsKeyId := if isEncrypted then mapGet req.parameters KmsKeyIdKey else ""
    match parseContentSource req.volumeContentSource with
    | .error e => ({ result := .error e, createInvoked := false }, st)
    | .ok snapshotId =>
      let opts : DiskOptions :=
        { capacityBytes := volSizeBytes
          tags := [(VolumeNameTagKey, req.name)]
          volumeType := volumeType
          iopsPerGB := iopsPerGB
          availabilityZone := zone
          encrypted := isEncrypted
          kmsKeyID := kmsKeyId
          snapshotID := snapshotId }
      match cloud.createDisk st req.name opts with
      | .error msg =>
        ({ result := .error (.status .Internal
            ("Could not create volume " ++ req.name ++ ": " ++ msg)),
           createInvoked := true }, st)
      | .ok (disk, st') =>
        ({ result := .ok (newCreateVolumeResponse { disk with fsType := fsType }),
           createInvoked := true }, st')

/-- The idempotency-lookup switch of `CreateVolume` (lines 78–98): classify
the by-name lookup — ambiguous and unknown failures are internal, a size
mismatch is a conflict, an existing record replays as success, and only
absence falls through to the create path. -/
def createVolumeAfterValidation {σ : Type} (cloud : CloudVolumes σ) (st : σ)
    (req : CreateVolumeRequest) (volSizeBytes : Int) : CreateVolumeOutcome × σ :=
  let fsType := mapGet req.parameters FsTypeKey
  match cloud.getDiskByName st req.name volSizeBytes with
  | .errMultiDisks =>
    ({ result := .error (.status .Internal ErrMultiDisksMsg),
       createInvoked := false }, st)
  | .errDiskExistsDiffSize =>
    ({ result := .error (.status .AlreadyExists ErrDiskExistsDiffSizeMsg),
       createInvoked := false }, st)
  | .errOther msg =>
    ({ result := .error (.status .Internal msg), createInvoked := false }, st)
  | .found disk =>
    -- volume exists already: idempotent replay
    ({ result := .ok (newCreateVolumeResponse { disk with fsType := fsType }),
       createInvoked := false }, st)
  | .errNotFound =>
    -- create a new volume
    createVolumeCreatePath cloud st req volSizeBytes fsType

/-- `(d *Driver).CreateVolume` (lines 50–148): request validation and
capacity normalization, then the idempotency lookup and creation. -/
def CreateVolume {σ : Type} (cloud : CloudVolumes σ) (st : σ)
    (req : CreateVolumeRequest) : CreateVolumeOutcome × σ :=
  if req.name.length = 0 then
    ({ result := .error (.status .InvalidArgument "Volume name not provided"),
       createInvoked := false }, st)
  else
    match normalizeCapacity req.capacityRange with
    | .error e => ({ result := .error e, createInvoked := false }, st)
    | .ok volSizeBytes =>
      if req.volumeCapabilities.length = 0 then
        ({ result := .error (.status .InvalidArgument "Volume capabilities not provided"),
           createInvoked := false }, st)
      else if ¬ isValidVolumeCapabilities req.volumeCapabilities then
        ({ result := .error (.status .InvalidArgument "Volume capabilities not supported"),
           createInvoked := false }, st)
      else
        createVolumeAfterValidation cloud st req volSizeBytes

/-! ## DeleteVolume / DeleteSnapshot -/

/-- `csi.DeleteVolumeResponse` (empty message). -/
structure DeleteVolumeResponse where
deriving DecidableEq, Repr

/-- `csi.DeleteSnapshotResponse` (empty message). -/
structure DeleteSnapshotResponse where
deriving DecidableEq, Repr

/-- `(d *Driver).DeleteVolume` (lines 150–166): a not-found backend result on
delete is success; any other failure is internal. -/
def DeleteVolume (deleteDisk : String → DeleteResult) (volumeID : String) :
    Except DriverError DeleteVolumeResponse :=
  if volumeID.length = 0 then
    .error (.status .InvalidArgument "Volume ID not provided")
  else
    match deleteDisk volumeID with
    | .errNotFound => .ok {}
    | .errOther msg =>
      .error (.status .Internal ("Could not delete volume ID " ++ volumeID ++ ": " ++ msg))
    | .ok => .ok {}

/-- `(d *Driver).DeleteSnapshot` (lines 342–358): same idempotent-delete
shape for snapshots. -/
def DeleteSnapshot (deleteSnap : String → DeleteResult) (snapshotID : String) :
    Except DriverError DeleteSnapshotResponse :=
  if snapshotID.length = 0 then
    .error (.status .InvalidArgument "Snapshot ID not provided")
  else
    match deleteSnap snapshotID with
    | .errNotFound => .ok {}
    | .errOther msg =>
      .error (.status .Internal ("Could not delete snapshot ID " ++ snapshotID ++ ": " ++ msg))
    | .ok => .ok {}

/-! ## ControllerPublishVolume -/

/-- `csi.ControllerPublishVolumeRequest` (the fields the handler reads). -/
structure ControllerPublishVolumeRequest where
  volumeId : String
  nodeId : String
  volumeCapability : Option VolumeCapability
deriving DecidableEq, Repr

/-- Backend surface consumed by `ControllerPublishVolume`. -/
structure CloudPublish where
  isExistInstance : String → Bool
  getDiskByID : String → GetDiskByIDResult
  attachDisk : String → String → AttachResult

/-- Observable backend-facing steps of the publish path, in the order the
handler performs them. -/
inductive PubEvent where
  | capCheck
  | instanceCheck
  | volumeLookup
  | attach
deriving DecidableEq, Repr

/-- `(d *Driver).ControllerPublishVolume` (lines 168–212), instrumented with
the trace of checks performed: capability validation, instance existence,
volume existence, then attach; success forwards the backend device path in
the publish context. -/
def ControllerPublishVolume (cloud : CloudPublish)
    (req : ControllerPublishVolumeRequest) :
    Except DriverError ControllerPublishVolumeResponse × List PubEvent :=
  if req.volumeId.length = 0 then
    (.error (.status .InvalidArgument "Volume ID not provided"), [])
  else if req.nodeId.length = 0 then
    (.error (.status .InvalidArgument "Node ID not provided"), [])
  else
    match req.volumeCapability with
    | none => (.error (.status .InvalidArgument "Volume capability not provided"), [])
    | some volCap =>
      if ¬ isValidVolumeCapabilities [volCap] then
        (.error (.status .InvalidArgument "Volume capability not supported"),
         [.capCheck])
      else if ¬ cloud.isExistInstance req.nodeId then
        (.error (.status .NotFound ("Instance " ++ req.nodeId ++ " not found")),
         [.capCheck, .instanceCheck])
      else
        match cloud.getDiskByID req.volumeId with
        | .errNotFound =>
          (.error (.status .NotFound "Volume not found"),
           [.capCheck, .instanceCheck, .volumeLookup])
        | .errOther msg =>
          (.error (.status .Internal
             ("Could not get volume with ID " ++ req.volumeId ++ ": " ++ msg)),
           [.capCheck, .instanceCheck, .volumeLookup])
        | .found _ =>
          match cloud.attachDisk req.volumeId req.nodeId with
          | .errAlreadyExists =>
            (.error (.status .AlreadyExists ErrAlreadyExistsMsg),
             [.capCheck, .instanceCheck, .volumeLookup, .attach])
          | .errOther msg =>
            (.error (.status .Internal
               ("Could not attach volume " ++ req.volumeId ++ " to node "
                 ++ req.nodeId ++ ": " ++ msg)),
             [.capCheck, .instanceCheck, .volumeLookup, .attach])
          | .ok devicePath =>
            (.ok { publishContext := [(DevicePathKey, devicePath)] },
             [.capCheck, .instanceCheck, .volumeLookup, .attach])

/-! ## ValidateVolumeCapabilities -/

/-- `csi.ValidateVolumeCapabilitiesRequest` (the fields the handler reads). -/
structure ValidateVolumeCapabilitiesRequest where
  volumeId : String
  volumeCapabilities : List VolumeCapability
deriving DecidableEq, Repr

/-- `(d *Driver).ValidateVolumeCapabilities` (lines 260–286): the volume must
exist; an unsupported capability yields an absent confirmation, not an
error. -/
def ValidateVolumeCapabilities (getDiskByID : String → GetDiskByIDResult)
    (req : ValidateVolumeCapabilitiesRequest) :
    Except DriverError ValidateVolumeCapabilitiesResponse :=
  if req.volumeId.length = 0 then
    .error (.status .InvalidArgument "Volume ID not provided")
  else if req.volumeCapabilities.length = 0 then
    .error (.status .InvalidArgument "Volume capabilities not provided")
  else
    match getDiskByID req.volumeId with
    | .errNotFound => .error (.status .NotFound "Volume not found")
    | .errOther msg =>
      .error (.status .Internal
        ("Could not get volume with ID " ++ req.volumeId ++ ": " ++ msg))
    | .found _ =>
      let confirmed : Option (List VolumeCapability) :=
        if isValidVolumeCapabilities req.volumeCapabilities then
          some req.volumeCapabilities
        else none
      .ok { confirmed := confirmed }

/-! ## CreateSnapshot -/

/-- `csi.CreateSnapshotRequest` (the fields the handler reads). -/
structure CreateSnapshotRequest where
  name : String
  sourceVolumeId : String
deriving DecidableEq, Repr

/-- Backend surface consumed by `CreateSnapshot`. -/
structure CloudSnapshots where
  getSnapshotByName : String → GetSnapshotByNameResult
  createSnapshot : String → SnapshotOptions → Except String Snapshot

/-- Result of a `CreateSnapshot` call, instrumented with whether backend
creation (`d.cloud.CreateSnapshot`) was invoked. -/
structure CreateSnapshotOutcome where
  result : Except DriverError CreateSnapshotResponse
  createInvoked : Bool
deriving Repr

/-- `(d *Driver).CreateSnapshot` (lines 307–340): by-name idempotency lookup;
a match on the source volume replays the existing record, a mismatch is a
conflict, absence creates via the backend.  A lookup failure other than
not-found is returned raw (`return nil, err`). -/
def CreateSnapshot (cloud : CloudSnapshots) (req : CreateSnapshotRequest) :
    CreateSnapshotOutcome :=
  if req.name.length = 0 then
    { result := .error (.status .InvalidArgument "Snapshot name not provided"),
      createInvoked := false }
  else if req.sourceVolumeId.length = 0 then
    { result := .error (.status .InvalidArgument "Snapshot volume source ID not provided"),
      createInvoked := false }
  else
    match cloud.getSnapshotByName req.name with
    | .errOther msg =>
      { result := .error (.raw msg), createInvoked := false }
    | .found snapshot =>
      if snapshot.sourceVolumeID ≠ req.sourceVolumeId then
        { result := .error (.status .AlreadyExists
            ("Snapshot " ++ req.name ++ " already exists for different volume ("
              ++ snapshot.sourceVolumeID ++ ")")),
          createInvoked := false }
      else
        -- snapshot already exists; nothing to do
        { result := newCreateSnapshotResponse snapshot, createInvoked := false }
    | .errNotFound =>
      let opts : SnapshotOptions := { tags := [(SnapshotNameTagKey, req.name)] }
      match cloud.createSnapshot req.sourceVolumeId opts with
      | .error msg =>
        { result := .error (.status .Internal
            ("Could not create snapshot " ++ req.name ++ ": " ++ msg)),
          createInvoked := true }
      | .ok snapshot =>
        { result := newCreateSnapshotResponse snapshot, createInvoked := true }

/-! ## A reference backend for the volume store

Modelled from the spec's backend collaborator interface (§6):
`lookup-disk-by-name(name, size) → disk | not-found | multiple-found |
size-mismatch`, `create-disk(options) → disk`.  The store is an association
list of name-tagged disk records; creation inserts a record whose capacity is
the requested byte count in backend units. -/

/-- Modelled from the spec: the by-name lookup of the backend collaborator.
No match is not-found; several matches are ambiguous; a single match is
compared against the requested size. -/
def backendGetDiskByName (store : List (String × Disk)) (name : String)
    (sizeBytes : Int) : GetDiskByNameResult :=
  match store.filter (fun p => p.1 = name) with
  | [] => .errNotFound
  | [p] =>
    if p.2.capacityGiB = BytesToGiB sizeBytes then .found p.2
    else .errDiskExistsDiffSize
  | _ => .errMultiDisks

/-- Modelled from the spec: the disk record the backend creates for given
name and options (identifier backend-assigned and stable, capacity in
backend units, zone as requested). -/
def mkDisk (name : String) (opts : DiskOptions) : Disk :=
  { volumeID := "vol-" ++ name
    capacityGiB := BytesToGiB opts.capacityBytes
    availabilityZone := opts.availabilityZone
    fsType := "" }

/-- Modelled from the spec: the backend collaborator over the reference
store — lookups read the store, creation prepends the new record. -/
def mkCloud : CloudVolumes (List (String × Disk)) :=
  { getDiskByName := backendGetDiskByName
    createDisk := fun store name opts =>
      .ok (mkDisk name opts, (name, mkDisk name opts) :: store) }

/-- A supported volume capability, for concrete instances. -/
def sampleCap : VolumeCapability := ⟨some { mode := .SINGLE_NODE_WRITER }⟩

/-- A minimal well-formed CreateVolume request, for concrete instances. -/
def sampleReq : CreateVolumeRequest :=
  { name := "vol"
    capacityRange := none
    volumeCapabilities := [sampleCap]
    parameters := []
    accessibilityRequirements := none
    volumeContentSource := none }

/-- A concrete backend disk record, for concrete instances. -/
def sampleDisk : Disk :=
  { volumeID := "vol-7", capacityGiB := 4, availabilityZone := "za", fsType := "xfs" }

/-- A stateless backend whose by-name lookup always yields `r`, for concrete
instances. -/
def constCloud (r : GetDiskByNameResult) : CloudVolumes Unit :=
  { getDiskByName := fun _ _ _ => r
    createDisk := fun _ name opts => .ok (mkDisk name opts, ()) }

/-- A snapshot record whose creation time lies outside the protocol
timestamp range, for concrete instances. -/
def badSnap : Snapshot :=
  { snapshotID := "snap-1", sourceVolumeID := "vol-1", size := 1,
    creationTime := 253402300800, readyToUse := false }

/-- A snapshot record with an in-range creation time and a false readiness
flag, for concrete instances. -/
def readySnap : Snapshot :=
  { snapshotID := "snap-2", sourceVolumeID := "vol-1", size := 1,
    creationTime := 1500000000, readyToUse := false }

/-- A snapshot backend that always finds `s` by name, for concrete
instances. -/
def constSnapCloud (s : Snapshot) : CloudSnapshots :=
  { getSnapshotByName := fun _ => .found s
    createSnapshot := fun _ _ => .error "unused" }

/-- A minimal well-formed CreateSnapshot request, for concrete instances. -/
def sampleSnapReq : CreateSnapshotRequest :=
  { name := "snap", sourceVolumeId := "vol-1" }

/-- Checks whether a snapshot-call result is an Internal-coded gRPC status
error (as opposed to a raw, uncoded error). -/
def isInternalError : Except DriverError CreateSnapshotResponse → Bool
  | .error (.status .Internal _) => true
  | _ => false

/-! # Theorems -/

/-! ## Shared helper lemmas -/

theorem findSome?_eq_none_of_forall {α β : Type} (f : α → Option β) :
    ∀ (l : List α), (∀ x ∈ l, f x = none) → l.findSome? f = none := by
  intro l h
  induction l with
  | nil => simp
  | cons a as ih =>
    rw [List.findSome?_cons]
    have ha : f a = none := h a (by simp)
    rw [ha]
    exact ih (fun x hx => h x (by simp [hx]))

theorem findSome?_append_first {α β : Type} (f : α → Option β)
    (l₁ : List α) (t : α) (l₂ : List α) (b : β)
    (h₁ : ∀ x ∈ l₁, f x = none) (ht : f t = some b) :
    (l₁ ++ t :: l₂).findSome? f = some b := by
  induction l₁ with
  | nil => simp [List.findSome?_cons, ht]
  | cons a as ih =>
    rw [List.cons_append, List.findSome?_cons, h₁ a (by simp)]
    exact ih (fun x hx => h₁ x (by simp [hx]))

theorem isValidVolumeCapabilities_iff (caps : List VolumeCapability) :
    isValidVolumeCapabilities caps = true ↔
      ∀ c ∈ caps, c.getAccessModeMode ∈ volumeCaps.map AccessMode.mode := by
  simp only [isValidVolumeCapabilities, List.all_eq_true, List.any_eq_true,
    List.mem_map, decide_eq_true_eq]

/-! ## CreateVolume layer lemmas -/

theorem createVolume_eq_afterValidation {σ : Type} (cloud : CloudVolumes σ)
    (st : σ) (req : CreateVolumeRequest) (sz : Int)
    (hname : req.name.length ≠ 0)
    (hnorm : normalizeCapacity req.capacityRange = .ok sz)
    (hlen : req.volumeCapabilities.length ≠ 0)
    (hvalid : isValidVolumeCapabilities req.volumeCapabilities = true) :
    CreateVolume cloud st req = createVolumeAfterValidation cloud st req sz := by
  unfold CreateVolume
  simp only [hnorm]
  rw [if_neg hname, if_neg hlen, if_neg (by simp [hvalid])]

theorem afterValidation_found {σ : Type} (cloud : CloudVolumes σ) (st : σ)
    (req : CreateVolumeRequest) (sz : Int) (disk : Disk)
    (h : cloud.getDiskByName st req.name sz = .found disk) :
    createVolumeAfterValidation cloud st req sz =
      ({ result := .ok (newCreateVolumeResponse
            { disk with fsType := mapGet req.parameters FsTypeKey }),
         createInvoked := false }, st) := by
  unfold createVolumeAfterValidation
  simp only [h]

theorem afterValidation_multi {σ : Type} (cloud : CloudVolumes σ) (st : σ)
    (req : CreateVolumeRequest) (sz : Int)
    (h : cloud.getDiskByName st req.name sz = .errMultiDisks) :
    createVolumeAfterValidation cloud st req sz =
      ({ result := .error (.status .Internal ErrMultiDisksMsg),
         createInvoked := false }, st) := by
  unfold createVolumeAfterValidation
  simp only [h]

theorem afterValidation_diffSize {σ : Type} (cloud : CloudVolumes σ) (st : σ)
    (req : CreateVolumeRequest) (sz : Int)
    (h : cloud.getDiskByName st req.name sz = .errDiskExistsDiffSize) :
    createVolumeAfterValidation cloud st req sz =
      ({ result := .error (.status .AlreadyExists ErrDiskExistsDiffSizeMsg),
         createInvoked := false }, st) := by
  unfold createVolumeAfterValidation
  simp only [h]

theorem afterValidation_other {σ : Type} (cloud : CloudVolumes σ) (st : σ)
    (req : CreateVolumeRequest) (sz : Int) (msg : String)
    (h : cloud.getDiskByName st req.name sz = .errOther msg) :
    createVolumeAfterValidation cloud st req sz =
      ({ result := .error (.status .Internal msg), createInvoked := false }, st) := by
  unfold createVolumeAfterValidation
  simp only [h]

theorem afterValidation_absent {σ : Type} (cloud : CloudVolumes σ) (st : σ)
    (req : CreateVolumeRequest) (sz : Int)
    (h : cloud.getDiskByName st req.name sz = .errNotFound) :
    createVolumeAfterValidation cloud st req sz =
      createVolumeCreatePath cloud st req sz (mapGet req.parameters FsTypeKey) := by
  unfold createVolumeAfterValidation
  simp only [h]

theorem createPath_invoked {σ : Type} (cloud : CloudVolumes σ) (st : σ)
    (req : CreateVolumeRequest) (sz : Int) (fsType : String)
    (hvt : mapGet req.parameters VolumeTypeKey ≠ VolumeTypeIO1)
    (hsrc : req.volumeContentSource = none) :
    (createVolumeCreatePath cloud st req sz fsType).1.createInvoked = true := by
  unfold createVolumeCreatePath
  have h1 : parseIopsPerGB req.parameters = .ok 0 := by
    unfold parseIopsPerGB
    rw [if_neg hvt]
  simp only [h1, hsrc, parseContentSource]
  split <;> rfl

theorem createInvoked_only_if_absent :
    ∀ {σ : Type} (cloud : CloudVolumes σ) (st : σ) (req : CreateVolumeRequest),
      (CreateVolume cloud st req).1.createInvoked = true →
      ∃ sz, normalizeCapacity req.capacityRange = .ok sz ∧
        cloud.getDiskByName st req.name sz = .errNotFound := by
  intro σ cloud st req h
  unfold CreateVolume at h
  split at h
  · simp at h
  · split at h
    · simp at h
    · rename_i sz hnorm
      split at h
      · simp at h
      · split at h
        · simp at h
        · unfold createVolumeAfterValidation at h
          split at h
          · simp at h
          · simp at h
          · simp at h
          · simp at h
          · rename_i hlook
            exact ⟨sz, hnorm, hlook⟩

/-! ## C2: CreateVolume lookup classification -/

/-- C2: the by-name lookup outcome is classified exactly as — absent proceeds
to the create path; an existing volume of different size is an
AlreadyExists-class conflict; multiple matches are an internal error; any
other lookup failure is an internal error; and no outcome other than absence
ever reaches backend creation. -/
theorem createVolume_lookup_classification :
    (∀ (σ : Type) (cloud : CloudVolumes σ) (st : σ) (req : CreateVolumeRequest) (sz : Int),
      req.name.length ≠ 0 →
      normalizeCapacity req.capacityRange = .ok sz →
      req.volumeCapabilities.length ≠ 0 →
      isValidVolumeCapabilities req.volumeCapabilities = true →
        (cloud.getDiskByName st req.name sz = .errMultiDisks →
          (CreateVolume cloud st req).1.result
              = .error (.status .Internal ErrMultiDisksMsg)
            ∧ (CreateVolume cloud st req).1.createInvoked = false)
      ∧ (cloud.getDiskByName st req.name sz = .errDiskExistsDiffSize →
          (CreateVolume cloud st req).1.result
              = .error (.status .AlreadyExists ErrDiskExistsDiffSizeMsg)
            ∧ (CreateVolume cloud st req).1.createInvoked = false)
      ∧ (∀ msg, cloud.getDiskByName st req.name sz = .errOther msg →
          (CreateVolume cloud st req).1.result = .error (.status .Internal msg)
            ∧ (CreateVolume cloud st req).1.createInvoked = false)
      ∧ (cloud.getDiskByName st req.name sz = .errNotFound →
          mapGet req.parameters VolumeTypeKey ≠ VolumeTypeIO1 →
          req.volumeContentSource = none →
          (CreateVolume cloud st req).1.createInvoked = true))
  ∧ (∀ (σ : Type) (cloud : CloudVolumes σ) (st : σ) (req : CreateVolumeRequest),
      (CreateVolume cloud st req).1.createInvoked = true →
      ∃ sz, normalizeCapacity req.capacityRange = .ok sz ∧
        cloud.getDiskByName st req.name sz = .errNotFound) := by
  constructor
  · intro σ cloud st req sz hname hnorm hlen hvalid
    have heq := createVolume_eq_afterValidation cloud st req sz hname hnorm hlen hvalid
    refine ⟨?_, ?_, ?_, ?_⟩
    · intro h
      rw [heq, afterValidation_multi cloud st req sz h]
      exact ⟨rfl, rfl⟩
    · intro h
      rw [heq, afterValidation_diffSize cloud st req sz h]
      exact ⟨rfl, rfl⟩
    · intro msg h
      rw [heq, afterValidation_other cloud st req sz msg h]
      exact ⟨rfl, rfl⟩
    · intro h hvt hsrc
      rw [heq, afterValidation_absent cloud st req sz h]
      exact createPath_invoked cloud st req sz _ hvt hsrc
  · intro σ cloud st req h
    exact createInvoked_only_if_absent cloud st req h

/-- Witness for C2: each lookup outcome at a concrete request against
constant backends. -/
theorem createVolume_lookup_classification_witness :
    ("vol".length ≠ 0
      ∧ normalizeCapacity none = .ok DefaultVolumeSize
      ∧ [sampleCap].length ≠ 0
      ∧ isValidVolumeCapabilities [sampleCap] = true
      ∧ mapGet sampleReq.parameters VolumeTypeKey ≠ VolumeTypeIO1
      ∧ sampleReq.volumeContentSource = none)
  ∧ ((CreateVolume (constCloud .errMultiDisks) () sampleReq).1.result
        = .error (.status .Internal ErrMultiDisksMsg))
  ∧ ((CreateVolume (constCloud .errDiskExistsDiffSize) () sampleReq).1.result
        = .error (.status .AlreadyExists ErrDiskExistsDiffSizeMsg))
  ∧ ((CreateVolume (constCloud (.errOther "backend down")) () sampleReq).1.result
        = .error (.status .Internal "backend down"))
  ∧ ((CreateVolume (constCloud .errNotFound) () sampleReq).1.createInvoked = true) := by
  have hbase := createVolume_lookup_classification.1 Unit
  refine ⟨⟨by decide, rfl, by decide, by decide, by decide, rfl⟩, ?_, ?_, ?_, ?_⟩
  · exact ((hbase (constCloud .errMultiDisks) () sampleReq DefaultVolumeSize
      (by decide) rfl (by decide) (by decide)).1 rfl).1
  · exact ((hbase (constCloud .errDiskExistsDiffSize) () sampleReq DefaultVolumeSize
      (by decide) rfl (by decide) (by decide)).2.1 rfl).1
  · exact ((hbase (constCloud (.errOther "backend down")) () sampleReq DefaultVolumeSize
      (by decide) rfl (by decide) (by decide)).2.2.1 "backend down" rfl).1
  · exact (hbase (constCloud .errNotFound) () sampleReq DefaultVolumeSize
      (by decide) rfl (by decide) (by decide)).2.2.2 rfl (by decide) rfl

/-! ## Reference-backend lemmas -/

theorem backendGetDiskByName_absent (store : List (String × Disk)) (name : String)
    (sz : Int) (hfilter : store.filter (fun p => p.1 = name) = []) :
    backendGetDiskByName store name sz = .errNotFound := by
  unfold backendGetDiskByName
  rw [hfilter]

theorem backendGetDiskByName_after_insert (store : List (String × Disk))
    (name : String) (d : Disk) (sz : Int)
    (hfilter : store.filter (fun p => p.1 = name) = [])
    (hsize : d.capacityGiB = BytesToGiB sz) :
    backendGetDiskByName ((name, d) :: store) name sz = .found d := by
  unfold backendGetDiskByName
  rw [List.filter_cons_of_pos (by simp), hfilter]
  simp [hsize]

theorem createPath_mkCloud (store : List (String × Disk))
    (req : CreateVolumeRequest) (sz : Int) (fsType : String)
    (hvt : mapGet req.parameters VolumeTypeKey ≠ VolumeTypeIO1)
    (hsrc : req.volumeContentSource = none) :
    ∃ opts : DiskOptions, opts.capacityBytes = sz ∧
      createVolumeCreatePath mkCloud store req sz fsType =
        ({ result := .ok (newCreateVolumeResponse
              { mkDisk req.name opts with fsType := fsType }),
           createInvoked := true }, (req.name, mkDisk req.name opts) :: store) := by
  unfold createVolumeCreatePath
  have h1 : parseIopsPerGB req.parameters = .ok 0 := by
    unfold parseIopsPerGB
    rw [if_neg hvt]
  simp only [h1, hsrc, parseContentSource, mkCloud]
  exact ⟨_, rfl, rfl⟩

/-! ## C1: CreateVolume idempotent replay -/

/-- C1: when the by-name lookup returns an existing volume whose size matches
the normalized request, CreateVolume succeeds with that volume's identifier
and performs no backend creation; consequently, against the reference
backend, two CreateVolume calls with identical name and size return the same
volume identifier and the second call performs no new backend creation. -/
theorem createVolume_idempotent_replay :
    (∀ (σ : Type) (cloud : CloudVolumes σ) (st : σ) (req : CreateVolumeRequest)
        (sz : Int) (disk : Disk),
      req.name.length ≠ 0 →
      normalizeCapacity req.capacityRange = .ok sz →
      req.volumeCapabilities.length ≠ 0 →
      isValidVolumeCapabilities req.volumeCapabilities = true →
      cloud.getDiskByName st req.name sz = .found disk →
        (CreateVolume cloud st req).1.result
            = .ok (newCreateVolumeResponse
                { disk with fsType := mapGet req.parameters FsTypeKey })
        ∧ (newCreateVolumeResponse
            { disk with fsType := mapGet req.parameters FsTypeKey }).volume.volumeId
              = disk.volumeID
        ∧ (CreateVolume cloud st req).1.createInvoked = false
        ∧ (CreateVolume cloud st req).2 = st)
  ∧ (∀ (store : List (String × Disk)) (req : CreateVolumeRequest) (sz : Int),
      req.name.length ≠ 0 →
      normalizeCapacity req.capacityRange = .ok sz →
      req.volumeCapabilities.length ≠ 0 →
      isValidVolumeCapabilities req.volumeCapabilities = true →
      mapGet req.parameters VolumeTypeKey ≠ VolumeTypeIO1 →
      req.volumeContentSource = none →
      store.filter (fun p => p.1 = req.name) = [] →
      ∃ resp₁ resp₂ : CreateVolumeResponse,
        (CreateVolume mkCloud store req).1.result = .ok resp₁
        ∧ (CreateVolume mkCloud store req).1.createInvoked = true
        ∧ (CreateVolume mkCloud (CreateVolume mkCloud store req).2 req).1.result
            = .ok resp₂
        ∧ (CreateVolume mkCloud (CreateVolume mkCloud store req).2 req).1.createInvoked
            = false
        ∧ resp₂.volume.volumeId = resp₁.volume.volumeId) := by
  constructor
  · intro σ cloud st req sz disk hname hnorm hlen hvalid hfound
    rw [createVolume_eq_afterValidation cloud st req sz hname hnorm hlen hvalid,
      afterValidation_found cloud st req sz disk hfound]
    exact ⟨rfl, rfl, rfl, rfl⟩
  · intro store req sz hname hnorm hlen hvalid hvt hsrc hfilter
    have hlook1 : mkCloud.getDiskByName store req.name sz = .errNotFound :=
      backendGetDiskByName_absent store req.name sz hfilter
    obtain ⟨opts, hsz, hpath⟩ :=
      createPath_mkCloud store req sz (mapGet req.parameters FsTypeKey) hvt hsrc
    have h1 : CreateVolume mkCloud store req =
        ({ result := .ok (newCreateVolumeResponse
              { mkDisk req.name opts with fsType := mapGet req.parameters FsTypeKey }),
           createInvoked := true }, (req.name, mkDisk req.name opts) :: store) := by
      rw [createVolume_eq_afterValidation mkCloud store req sz hname hnorm hlen hvalid,
        afterValidation_absent mkCloud store req sz hlook1, hpath]
    have hsize : (mkDisk req.name opts).capacityGiB = BytesToGiB sz := by
      simp [mkDisk, hsz]
    have hlook2 : mkCloud.getDiskByName ((req.name, mkDisk req.name opts) :: store)
        req.name sz = .found (mkDisk req.name opts) :=
      backendGetDiskByName_after_insert store req.name (mkDisk req.name opts) sz
        hfilter hsize
    have h2 : CreateVolume mkCloud ((req.name, mkDisk req.name opts) :: store) req =
        ({ result := .ok (newCreateVolumeResponse
              { mkDisk req.name opts with fsType := mapGet req.parameters FsTypeKey }),
           createInvoked := false }, (req.name, mkDisk req.name opts) :: store) := by
      rw [createVolume_eq_afterValidation mkCloud ((req.name, mkDisk req.name opts) :: store)
          req sz hname hnorm hlen hvalid,
        afterValidation_found mkCloud ((req.name, mkDisk req.name opts) :: store)
          req sz (mkDisk req.name opts) hlook2]
    refine ⟨newCreateVolumeResponse
        { mkDisk req.name opts with fsType := mapGet req.parameters FsTypeKey },
      newCreateVolumeResponse
        { mkDisk req.name opts with fsType := mapGet req.parameters FsTypeKey },
      ?_, ?_, ?_, ?_, rfl⟩
    · rw [h1]
    · rw [h1]
    · rw [h1, h2]
    · rw [h1, h2]

/-- Witness for C1: replay at a concrete matching record, and the two-call
round trip against the reference backend from an empty store. -/
theorem createVolume_idempotent_replay_witness :
    ("vol".length ≠ 0
      ∧ normalizeCapacity none = .ok DefaultVolumeSize
      ∧ [sampleCap].length ≠ 0
      ∧ isValidVolumeCapabilities [sampleCap] = true
      ∧ mapGet sampleReq.parameters VolumeTypeKey ≠ VolumeTypeIO1
      ∧ sampleReq.volumeContentSource = none
      ∧ List.filter (fun p => p.1 = sampleReq.name) ([] : List (String × Disk)) = [])
  ∧ ((CreateVolume (constCloud (.found sampleDisk)) () sampleReq).1.result
      = .ok (newCreateVolumeResponse
          { sampleDisk with fsType := mapGet sampleReq.parameters FsTypeKey }))
  ∧ ((CreateVolume (constCloud (.found sampleDisk)) () sampleReq).1.createInvoked
      = false)
  ∧ (∃ resp₁ resp₂ : CreateVolumeResponse,
      (CreateVolume mkCloud [] sampleReq).1.result = .ok resp₁
      ∧ (CreateVolume mkCloud [] sampleReq).1.createInvoked = true
      ∧ (CreateVolume mkCloud (CreateVolume mkCloud [] sampleReq).2 sampleReq).1.result
          = .ok resp₂
      ∧ (CreateVolume mkCloud
          (CreateVolume mkCloud [] sampleReq).2 sampleReq).1.createInvoked = false
      ∧ resp₂.volume.volumeId = resp₁.volume.volumeId) := by
  have hA := createVolume_idempotent_replay.1 Unit
    (constCloud (.found sampleDisk)) () sampleReq DefaultVolumeSize sampleDisk
    (by decide) rfl (by decide) (by decide) rfl
  refine ⟨⟨by decide, rfl, by decide, by decide, by decide, rfl, rfl⟩, hA.1, hA.2.2.1, ?_⟩
  exact createVolume_idempotent_replay.2 [] sampleReq DefaultVolumeSize
    (by decide) rfl (by decide) (by decide) (by decide) rfl rfl

/-! ## C10: response assembly -/

theorem createPath_ok_shape {σ : Type} (cloud : CloudVolumes σ) (st : σ)
    (req : CreateVolumeRequest) (sz : Int) (fsType : String)
    (resp : CreateVolumeResponse)
    (h : (createVolumeCreatePath cloud st req sz fsType).1.result = .ok resp) :
    ∃ d : Disk, resp = newCreateVolumeResponse d ∧ d.fsType = fsType := by
  unfold createVolumeCreatePath at h
  cases hio : parseIopsPerGB req.parameters with
  | error e => simp [hio] at h
  | ok n =>
    simp only [hio] at h
    cases hcs : parseContentSource req.volumeContentSource with
    | error e => simp [hcs] at h
    | ok sid =>
      simp only [hcs] at h
      split at h
      · simp at h
      · simp only [Except.ok.injEq] at h
        exact ⟨_, h.symm, rfl⟩

/-- C10: every successful CreateVolume response — replay or fresh creation —
is the translation of a backend record whose filesystem-type field has been
overwritten with the hint from the current request's parameters (never kept
from the existing record), and its accessible-topology list is exactly one
entry carrying that record's zone. -/
theorem createVolume_fsType_from_request :
    (∀ (σ : Type) (cloud : CloudVolumes σ) (st : σ) (req : CreateVolumeRequest)
        (resp : CreateVolumeResponse),
      (CreateVolume cloud st req).1.result = .ok resp →
      ∃ d : Disk,
        resp = newCreateVolumeResponse d
        ∧ d.fsType = mapGet req.parameters FsTypeKey
        ∧ resp.volume.volumeContext = [(FsTypeKey, mapGet req.parameters FsTypeKey)]
        ∧ resp.volume.accessibleTopology
            = [{ segments := [(TopologyKey, d.availabilityZone)] }])
  ∧ (∀ (σ : Type) (cloud : CloudVolumes σ) (st : σ) (req : CreateVolumeRequest)
        (sz : Int) (disk : Disk),
      req.name.length ≠ 0 →
      normalizeCapacity req.capacityRange = .ok sz →
      req.volumeCapabilities.length ≠ 0 →
      isValidVolumeCapabilities req.volumeCapabilities = true →
      cloud.getDiskByName st req.name sz = .found disk →
        (CreateVolume cloud st req).1.result
            = .ok (newCreateVolumeResponse
                { disk with fsType := mapGet req.parameters FsTypeKey })
        ∧ (newCreateVolumeResponse
              { disk with fsType := mapGet req.parameters FsTypeKey }).volume.volumeContext
            = [(FsTypeKey, mapGet req.parameters FsTypeKey)]
        ∧ (newCreateVolumeResponse
              { disk with fsType := mapGet req.parameters FsTypeKey }).volume.accessibleTopology
            = [{ segments := [(TopologyKey, disk.availabilityZone)] }]) := by
  constructor
  · intro σ cloud st req resp h
    unfold CreateVolume at h
    split at h
    · simp at h
    · split at h
      · simp at h
      · split at h
        · simp at h
        · split at h
          · simp at h
          · unfold createVolumeAfterValidation at h
            split at h
            · simp at h
            · simp at h
            · simp at h
            · simp only [Except.ok.injEq] at h
              exact ⟨_, h.symm, rfl, by rw [← h]; rfl, by rw [← h]; rfl⟩
            · obtain ⟨d, hd, hfs⟩ := createPath_ok_shape cloud st req _ _ resp h
              refine ⟨d, hd, hfs, ?_, ?_⟩
              · rw [hd, ← hfs]; rfl
              · rw [hd]; rfl
  · intro σ cloud st req sz disk hname hnorm hlen hvalid hfound
    rw [createVolume_eq_afterValidation cloud st req sz hname hnorm hlen hvalid,
      afterValidation_found cloud st req sz disk hfound]
    exact ⟨rfl, rfl, rfl⟩

/-- Witness for C10: the replay case at a concrete record whose stored
filesystem type "xfs" is replaced by the request's (empty) hint. -/
theorem createVolume_fsType_from_request_witness :
    ((CreateVolume (constCloud (.found sampleDisk)) () sampleReq).1.result
        = .ok (newCreateVolumeResponse
            { sampleDisk with fsType := mapGet sampleReq.parameters FsTypeKey }))
  ∧ (∃ d : Disk,
      newCreateVolumeResponse { sampleDisk with fsType := mapGet sampleReq.parameters FsTypeKey }
          = newCreateVolumeResponse d
        ∧ d.fsType = mapGet sampleReq.parameters FsTypeKey
        ∧ (newCreateVolumeResponse
            { sampleDisk with fsType := mapGet sampleReq.parameters FsTypeKey }).volume.volumeContext
            = [(FsTypeKey, mapGet sampleReq.parameters FsTypeKey)]
        ∧ (newCreateVolumeResponse
            { sampleDisk with fsType := mapGet sampleReq.parameters FsTypeKey }).volume.accessibleTopology
            = [{ segments := [(TopologyKey, d.availabilityZone)] }]) := by
  have hrep := (createVolume_fsType_from_request.2 Unit (constCloud (.found sampleDisk))
    () sampleReq DefaultVolumeSize sampleDisk (by decide) rfl (by decide) (by decide) rfl).1
  exact ⟨hrep, createVolume_fsType_from_request.1 Unit (constCloud (.found sampleDisk))
    () sampleReq _ hrep⟩

/-! ## C6: topology selector -/

/-- C6: `pickAvailabilityZone` is the deterministic first-match scan — it
returns the first zone value under the topology-zone key in the preferred
sequence; failing that, the first such value in the requisite sequence;
failing that (or with no requirement at all), the empty string.  Preferred
strictly takes precedence over requisite. -/
theorem pickAvailabilityZone_first_match_spec :
    pickAvailabilityZone none = ""
  ∧ (∀ (reqs preA preB : List Topology) (t : Topology) (zone : String),
      (∀ u ∈ preA, u.segments.lookup TopologyKey = none) →
      t.segments.lookup TopologyKey = some zone →
      pickAvailabilityZone
        (some { requisite := reqs, preferred := preA ++ t :: preB }) = zone)
  ∧ (∀ (prefs reqA reqB : List Topology) (t : Topology) (zone : String),
      (∀ u ∈ prefs, u.segments.lookup TopologyKey = none) →
      (∀ u ∈ reqA, u.segments.lookup TopologyKey = none) →
      t.segments.lookup TopologyKey = some zone →
      pickAvailabilityZone
        (some { requisite := reqA ++ t :: reqB, preferred := prefs }) = zone)
  ∧ (∀ (reqs prefs : List Topology),
      (∀ u ∈ prefs, u.segments.lookup TopologyKey = none) →
      (∀ u ∈ reqs, u.segments.lookup TopologyKey = none) →
      pickAvailabilityZone (some { requisite := reqs, preferred := prefs }) = "") := by
  refine ⟨rfl, ?_, ?_, ?_⟩
  · intro reqs preA preB t zone hnone ht
    simp only [pickAvailabilityZone]
    rw [findSome?_append_first (fun u => u.segments.lookup TopologyKey) preA t preB zone hnone ht]
  · intro prefs reqA reqB t zone hpref hnone ht
    simp only [pickAvailabilityZone]
    rw [findSome?_eq_none_of_forall _ prefs hpref,
      findSome?_append_first (fun u => u.segments.lookup TopologyKey) reqA t reqB zone hnone ht]
  · intro reqs prefs hpref hreq
    simp only [pickAvailabilityZone]
    rw [findSome?_eq_none_of_forall _ prefs hpref, findSome?_eq_none_of_forall _ reqs hreq]

/-- Witness for C6: the spec's concrete examples.  Preferred zone "a" beats
requisite zone "b"; requisite alone yields "b"; no requirement yields "". -/
theorem pickAvailabilityZone_first_match_spec_witness :
    pickAvailabilityZone
      (some { requisite := [{ segments := [(TopologyKey, "b")] }],
              preferred := [{ segments := [(TopologyKey, "a")] }] }) = "a"
  ∧ pickAvailabilityZone
      (some { requisite := [{ segments := [(TopologyKey, "b")] }],
              preferred := [] }) = "b"
  ∧ pickAvailabilityZone none = "" := by
  refine ⟨?_, ?_, pickAvailabilityZone_first_match_spec.1⟩
  · exact pickAvailabilityZone_first_match_spec.2.1
      [{ segments := [(TopologyKey, "b")] }] [] [] { segments := [(TopologyKey, "a")] } "a"
      (by simp) (by simp)
  · exact pickAvailabilityZone_first_match_spec.2.2.1
      [] [] [] { segments := [(TopologyKey, "b")] } "b"
      (by simp) (by simp) (by simp)

/-! ## C3: capacity normalization -/

/-- C3 counterexample: a request whose required bytes equal its limit bytes is
NOT always accepted — with required = limit = 1 byte the required value rounds
up to one full allocation unit, which exceeds the 1-byte limit, and the call
is rejected with an invalid-request error. -/
theorem normalizeCapacity_required_eq_limit_rejected :
    normalizeCapacity (some { requiredBytes := 1, limitBytes := 1 })
      = .error (.status .InvalidArgument
          "After round-up, volume size exceeds the limit specified") := by
  rfl

/-- C3 (amended): with no capacity range the fixed default size is used;
otherwise required bytes are rounded up to the nearest allocation-unit
multiple (required = 1 byte becomes one full unit); if a positive limit is
smaller than the rounded value the call fails with an invalid-request error;
and a request with required = limit is accepted when the required value is
already a multiple of the allocation unit (otherwise rounding pushes it above
the limit and the request is rejected). -/
theorem normalizeCapacity_spec :
    normalizeCapacity none = .ok DefaultVolumeSize
  ∧ (∀ bytes : Int, 0 ≤ bytes →
      bytes ≤ RoundUpBytes bytes ∧ GiB ∣ RoundUpBytes bytes
        ∧ RoundUpBytes bytes < bytes + GiB)
  ∧ RoundUpBytes 1 = GiB
  ∧ (∀ required limit : Int, 0 < limit → limit < RoundUpBytes required →
      normalizeCapacity (some { requiredBytes := required, limitBytes := limit })
        = .error (.status .InvalidArgument
            "After round-up, volume size exceeds the limit specified"))
  ∧ (∀ required limit : Int, ¬ (0 < limit ∧ limit < RoundUpBytes required) →
      normalizeCapacity (some { requiredBytes := required, limitBytes := limit })
        = .ok (RoundUpBytes required))
  ∧ (∀ required : Int, 0 < required → GiB ∣ required →
      normalizeCapacity (some { requiredBytes := required, limitBytes := required })
        = .ok required) := by
  have hround : ∀ required : Int, 0 < required → GiB ∣ required →
      RoundUpBytes required = required := by
    intro required hpos hdvd
    obtain ⟨k, rfl⟩ := hdvd
    simp only [RoundUpBytes, GiB] at *
    rw [Int.tdiv_eq_ediv (by omega) (by omega)]
    omega
  refine ⟨rfl, ?_, by decide, ?_, ?_, ?_⟩
  · intro bytes hb
    simp only [RoundUpBytes, GiB] at *
    rw [Int.tdiv_eq_ediv (by omega) (by omega)]
    refine ⟨?_, ⟨(bytes + 1073741824 - 1) / 1073741824, by ring⟩, ?_⟩ <;> omega
  · intro required limit hl hlt
    simp only [normalizeCapacity]
    rw [if_pos ⟨hl, hlt⟩]
  · intro required limit hno
    simp only [normalizeCapacity]
    rw [if_neg hno]
  · intro required hpos hdvd
    have h := hround required hpos hdvd
    simp only [normalizeCapacity, h]
    rw [if_neg (by omega)]

/-- Witness for C3 (amended): required = 1 rounds up to one GiB and is
rejected against a positive 1-byte limit; required = limit = 5 GiB is
accepted unchanged; no capacity range yields the default size. -/
theorem normalizeCapacity_spec_witness :
    normalizeCapacity none = .ok DefaultVolumeSize
  ∧ ((0 : Int) ≤ 1 ∧ (1 : Int) ≤ RoundUpBytes 1 ∧ GiB ∣ RoundUpBytes 1
      ∧ RoundUpBytes 1 < 1 + GiB)
  ∧ ((0 : Int) < 1 ∧ (1 : Int) < RoundUpBytes 1
      ∧ normalizeCapacity (some { requiredBytes := 1, limitBytes := 1 })
          = .error (.status .InvalidArgument
              "After round-up, volume size exceeds the limit specified"))
  ∧ ((0 : Int) < 5 * GiB ∧ GiB ∣ 5 * GiB
      ∧ normalizeCapacity (some { requiredBytes := 5 * GiB, limitBytes := 5 * GiB })
          = .ok (5 * GiB)) := by
  refine ⟨normalizeCapacity_spec.1,
    ⟨by decide, (normalizeCapacity_spec.2.1 1 (by decide)).1,
      (normalizeCapacity_spec.2.1 1 (by decide)).2.1,
      (normalizeCapacity_spec.2.1 1 (by decide)).2.2⟩,
    ⟨by decide, by decide,
      normalizeCapacity_spec.2.2.2.1 1 1 (by decide) (by decide)⟩,
    ⟨by decide, ⟨5, by decide⟩,
      normalizeCapacity_spec.2.2.2.2.2 (5 * GiB) (by decide) ⟨5, by decide⟩⟩⟩

/-! ## C5: idempotent deletion -/

/-- C5: for every non-empty identifier, DeleteVolume and DeleteSnapshot
succeed (empty response, no error) exactly when the backend delete reports
success or not-found, and return an internal error for any other backend
failure; deleting an already-removed resource therefore succeeds. -/
theorem delete_not_found_is_success :
    ∀ (deleteDisk deleteSnap : String → DeleteResult) (volumeID snapshotID : String),
      volumeID.length ≠ 0 → snapshotID.length ≠ 0 →
      ((DeleteVolume deleteDisk volumeID = .ok {} ↔
          deleteDisk volumeID = .ok ∨ deleteDisk volumeID = .errNotFound)
       ∧ (∀ msg, deleteDisk volumeID = .errOther msg →
           DeleteVolume deleteDisk volumeID
             = .error (.status .Internal
                 ("Could not delete volume ID " ++ volumeID ++ ": " ++ msg))))
    ∧ ((DeleteSnapshot deleteSnap snapshotID = .ok {} ↔
          deleteSnap snapshotID = .ok ∨ deleteSnap snapshotID = .errNotFound)
       ∧ (∀ msg, deleteSnap snapshotID = .errOther msg →
           DeleteSnapshot deleteSnap snapshotID
             = .error (.status .Internal
                 ("Could not delete snapshot ID " ++ snapshotID ++ ": " ++ msg)))) := by
  intro deleteDisk deleteSnap volumeID snapshotID hv hs
  constructor
  · constructor
    · unfold DeleteVolume
      rw [if_neg hv]
      cases h : deleteDisk volumeID <;> simp [h]
    · intro msg hmsg
      unfold DeleteVolume
      rw [if_neg hv, hmsg]
  · constructor
    · unfold DeleteSnapshot
      rw [if_neg hs]
      cases h : deleteSnap snapshotID <;> simp [h]
    · intro msg hmsg
      unfold DeleteSnapshot
      rw [if_neg hs, hmsg]

/-- Witness for C5: a backend that always reports not-found — repeat deletes
of already-removed resources succeed. -/
theorem delete_not_found_is_success_witness :
    ("vol-1".length ≠ 0 ∧ "snap-1".length ≠ 0)
  ∧ DeleteVolume (fun _ => .errNotFound) "vol-1" = .ok {}
  ∧ DeleteSnapshot (fun _ => .errNotFound) "snap-1" = .ok {} := by
  refine ⟨⟨by decide, by decide⟩, ?_, ?_⟩
  · exact ((delete_not_found_is_success (fun _ => .errNotFound) (fun _ => .errNotFound)
      "vol-1" "snap-1" (by decide) (by decide)).1.1).mpr (Or.inr rfl)
  · exact ((delete_not_found_is_success (fun _ => .errNotFound) (fun _ => .errNotFound)
      "vol-1" "snap-1" (by decide) (by decide)).2.1).mpr (Or.inr rfl)

/-! ## C8: ValidateVolumeCapabilities -/

/-- C8: ValidateVolumeCapabilities fails with a not-found error when the
volume-id lookup reports the volume absent; for an existing volume it returns
success with the full requested capability set confirmed iff every requested
capability's access mode is in the supported set, and an absent confirmation
(still success, no error) otherwise. -/
theorem validateVolumeCapabilities_spec :
    ∀ (getDiskByID : String → GetDiskByIDResult) (req : ValidateVolumeCapabilitiesRequest),
      req.volumeId.length ≠ 0 → req.volumeCapabilities.length ≠ 0 →
      (getDiskByID req.volumeId = .errNotFound →
        ValidateVolumeCapabilities getDiskByID req
          = .error (.status .NotFound "Volume not found"))
    ∧ (∀ d, getDiskByID req.volumeId = .found d →
        ∃ resp, ValidateVolumeCapabilities getDiskByID req = .ok resp
          ∧ (resp.confirmed = some req.volumeCapabilities ↔
              ∀ c ∈ req.volumeCapabilities,
                c.getAccessModeMode ∈ volumeCaps.map AccessMode.mode)
          ∧ (¬ (∀ c ∈ req.volumeCapabilities,
                  c.getAccessModeMode ∈ volumeCaps.map AccessMode.mode) →
              resp.confirmed = none)) := by
  intro getDiskByID req hid hcaps
  constructor
  · intro hnf
    unfold ValidateVolumeCapabilities
    rw [if_neg hid, if_neg hcaps, hnf]
  · intro d hfound
    unfold ValidateVolumeCapabilities
    rw [if_neg hid, if_neg hcaps, hfound]
    refine ⟨_, rfl, ?_, ?_⟩
    · by_cases hvalid : isValidVolumeCapabilities req.volumeCapabilities
      · simp only [hvalid, if_true, true_iff]
        exact (isValidVolumeCapabilities_iff req.volumeCapabilities).mp hvalid
      · simp only [hvalid, if_false]
        constructor
        · intro h
          exact absurd h (by simp)
        · intro h
          exact absurd ((isValidVolumeCapabilities_iff req.volumeCapabilities).mpr h)
            hvalid
    · intro hnot
      have hvalid : isValidVolumeCapabilities req.volumeCapabilities = false := by
        by_contra hcon
        exact hnot ((isValidVolumeCapabilities_iff req.volumeCapabilities).mp
          (by simpa using hcon))
      simp [hvalid]

/-- Witness for C8: a multi-node access mode yields an absent confirmation
(no error) for an existing volume, and a nonexistent volume yields a
not-found error. -/
theorem validateVolumeCapabilities_spec_witness :
    ("vol-1".length ≠ 0 ∧
      [VolumeCapability.mk (some { mode := .MULTI_NODE_MULTI_WRITER })].length ≠ 0)
  ∧ ValidateVolumeCapabilities
      (fun _ => .found { volumeID := "vol-1", capacityGiB := 1,
                         availabilityZone := "z", fsType := "" })
      { volumeId := "vol-1",
        volumeCapabilities := [⟨some { mode := .MULTI_NODE_MULTI_WRITER }⟩] }
      = .ok { confirmed := none }
  ∧ ValidateVolumeCapabilities (fun _ => .errNotFound)
      { volumeId := "vol-1",
        volumeCapabilities := [⟨some { mode := .MULTI_NODE_MULTI_WRITER }⟩] }
      = .error (.status .NotFound "Volume not found") := by
  refine ⟨⟨by decide, by decide⟩, ?_, ?_⟩
  · obtain ⟨resp, hresp, -, hnone⟩ :=
      (validateVolumeCapabilities_spec
        (fun _ => .found { volumeID := "vol-1", capacityGiB := 1,
                           availabilityZone := "z", fsType := "" })
        { volumeId := "vol-1",
          volumeCapabilities := [⟨some { mode := .MULTI_NODE_MULTI_WRITER }⟩] }
        (by decide) (by decide)).2
      { volumeID := "vol-1", capacityGiB := 1, availabilityZone := "z", fsType := "" }
      rfl
    have : resp.confirmed = none := hnone (by decide)
    rw [hresp]
    cases resp
    simp_all
  · exact (validateVolumeCapabilities_spec (fun _ => .errNotFound)
      { volumeId := "vol-1",
        volumeCapabilities := [⟨some { mode := .MULTI_NODE_MULTI_WRITER }⟩] }
      (by decide) (by decide)).1 rfl

/-! ## C7: ControllerPublishVolume -/

/-- C7: the publish path performs capability validation, the instance
existence check, and the volume lookup in that order, each gating the next
and all preceding the attach call; the respective failures are
invalid-request, not-found, not-found; an attach reporting already-attached
is a conflict error; and a successful attach returns the backend device path
in the publish-context map. -/
theorem controllerPublishVolume_spec :
    (∀ (cloud : CloudPublish) (req : ControllerPublishVolumeRequest)
        (volCap : VolumeCapability),
      req.volumeId.length ≠ 0 →
      req.nodeId.length ≠ 0 →
      req.volumeCapability = some volCap →
        (isValidVolumeCapabilities [volCap] = false →
          (ControllerPublishVolume cloud req).1
              = .error (.status .InvalidArgument "Volume capability not supported")
            ∧ (ControllerPublishVolume cloud req).2 = [.capCheck])
      ∧ (isValidVolumeCapabilities [volCap] = true →
          cloud.isExistInstance req.nodeId = false →
          (ControllerPublishVolume cloud req).1
              = .error (.status .NotFound ("Instance " ++ req.nodeId ++ " not found"))
            ∧ (ControllerPublishVolume cloud req).2 = [.capCheck, .instanceCheck])
      ∧ (isValidVolumeCapabilities [volCap] = true →
          cloud.isExistInstance req.nodeId = true →
          cloud.getDiskByID req.volumeId = .errNotFound →
          (ControllerPublishVolume cloud req).1
              = .error (.status .NotFound "Volume not found")
            ∧ (ControllerPublishVolume cloud req).2
                = [.capCheck, .instanceCheck, .volumeLookup])
      ∧ (∀ d, isValidVolumeCapabilities [volCap] = true →
          cloud.isExistInstance req.nodeId = true →
          cloud.getDiskByID req.volumeId = .found d →
            (cloud.attachDisk req.volumeId req.nodeId = .errAlreadyExists →
              (ControllerPublishVolume cloud req).1
                = .error (.status .AlreadyExists ErrAlreadyExistsMsg))
          ∧ (∀ path, cloud.attachDisk req.volumeId req.nodeId = .ok path →
              (ControllerPublishVolume cloud req).1
                  = .ok { publishContext := [(DevicePathKey, path)] }
                ∧ (ControllerPublishVolume cloud req).2
                    = [.capCheck, .instanceCheck, .volumeLookup, .attach])))
  ∧ (∀ (cloud : CloudPublish) (req : ControllerPublishVolumeRequest),
      PubEvent.attach ∈ (ControllerPublishVolume cloud req).2 →
      (ControllerPublishVolume cloud req).2
        = [.capCheck, .instanceCheck, .volumeLookup, .attach]) := by
  constructor
  · intro cloud req volCap hv hn hcap
    refine ⟨?_, ?_, ?_, ?_⟩
    · intro hbad
      unfold ControllerPublishVolume
      rw [if_neg hv, if_neg hn]
      simp only [hcap]
      rw [if_pos (by simp [hbad])]
      exact ⟨rfl, rfl⟩
    · intro hgood hinst
      unfold ControllerPublishVolume
      rw [if_neg hv, if_neg hn]
      simp only [hcap]
      rw [if_neg (by simp [hgood]), if_pos (by simp [hinst])]
      exact ⟨rfl, rfl⟩
    · intro hgood hinst hnf
      unfold ControllerPublishVolume
      rw [if_neg hv, if_neg hn]
      simp only [hcap]
      rw [if_neg (by simp [hgood]), if_neg (by simp [hinst])]
      simp only [hnf]
      constructor <;> first | rfl | trivial
    · intro d hgood hinst hfound
      constructor
      · intro hatt
        unfold ControllerPublishVolume
        rw [if_neg hv, if_neg hn]
        simp only [hcap]
        rw [if_neg (by simp [hgood]), if_neg (by simp [hinst])]
        simp only [hfound, hatt]
      · intro path hatt
        unfold ControllerPublishVolume
        rw [if_neg hv, if_neg hn]
        simp only [hcap]
        rw [if_neg (by simp [hgood]), if_neg (by simp [hinst])]
        simp only [hfound, hatt]
        constructor <;> first | rfl | trivial
  · intro cloud req h
    unfold ControllerPublishVolume at h ⊢
    by_cases hv : req.volumeId.length = 0
    · simp [hv] at h
    · rw [if_neg hv] at h ⊢
      by_cases hn : req.nodeId.length = 0
      · simp [hn] at h
      · rw [if_neg hn] at h ⊢
        cases hcap : req.volumeCapability with
        | none => simp [hcap] at h
        | some volCap =>
          simp only [hcap] at h ⊢
          by_cases hval : isValidVolumeCapabilities [volCap]
          · rw [if_neg (by simp [hval])] at h ⊢
            by_cases hinst : cloud.isExistInstance req.nodeId
            · rw [if_neg (by simp [hinst])] at h ⊢
              cases hdisk : cloud.getDiskByID req.volumeId with
              | errNotFound => simp [hdisk] at h
              | errOther m => simp [hdisk] at h
              | found d =>
                simp only [hdisk] at h ⊢
                cases hatt : cloud.attachDisk req.volumeId req.nodeId <;> simp [hatt]
            · rw [if_pos (by simp [hinst])] at h
              simp at h
          · rw [if_pos (by simp [hval])] at h
            simp at h

/-- Witness for C7: a fully passing publish at a concrete backend returns the
device path, with the full ordered trace of checks. -/
theorem controllerPublishVolume_spec_witness :
    ("vol-1".length ≠ 0 ∧ "node-1".length ≠ 0
      ∧ (some sampleCap = some sampleCap)
      ∧ isValidVolumeCapabilities [sampleCap] = true)
  ∧ ((ControllerPublishVolume
        { isExistInstance := fun _ => true,
          getDiskByID := fun _ => .found sampleDisk,
          attachDisk := fun _ _ => .ok "/dev/xvdba" }
        { volumeId := "vol-1", nodeId := "node-1",
          volumeCapability := some sampleCap }).1
      = .ok { publishContext := [(DevicePathKey, "/dev/xvdba")] })
  ∧ ((ControllerPublishVolume
        { isExistInstance := fun _ => true,
          getDiskByID := fun _ => .found sampleDisk,
          attachDisk := fun _ _ => .ok "/dev/xvdba" }
        { volumeId := "vol-1", nodeId := "node-1",
          volumeCapability := some sampleCap }).2
      = [.capCheck, .instanceCheck, .volumeLookup, .attach]) := by
  have h := ((controllerPublishVolume_spec.1
    { isExistInstance := fun _ => true,
      getDiskByID := fun _ => .found sampleDisk,
      attachDisk := fun _ _ => .ok "/dev/xvdba" }
    { volumeId := "vol-1", nodeId := "node-1", volumeCapability := some sampleCap }
    sampleCap (by decide) (by decide) rfl).2.2.2 sampleDisk (by decide) rfl rfl).2
    "/dev/xvdba" rfl
  exact ⟨⟨by decide, by decide, rfl, by decide⟩, h.1, h.2⟩

/-! ## C4: CreateSnapshot classification -/

/-- C4: the by-name snapshot lookup is classified as — a found record whose
source volume id matches the request replays as success (whatever its
readiness flag, which is passed through unchanged), a found record with a
different source volume id is an AlreadyExists-class conflict, and absence
creates a new snapshot via the backend. -/
theorem createSnapshot_classification :
    ∀ (cloud : CloudSnapshots) (req : CreateSnapshotRequest),
      req.name.length ≠ 0 → req.sourceVolumeId.length ≠ 0 →
      (∀ s, cloud.getSnapshotByName req.name = .found s →
          (s.sourceVolumeID = req.sourceVolumeId →
            (CreateSnapshot cloud req).result = newCreateSnapshotResponse s
            ∧ (CreateSnapshot cloud req).createInvoked = false
            ∧ ∀ ts, TimestampProto s.creationTime = .ok ts →
                ∃ resp, (CreateSnapshot cloud req).result = .ok resp
                  ∧ resp.snapshot.snapshotId = s.snapshotID
                  ∧ resp.snapshot.readyToUse = s.readyToUse)
        ∧ (s.sourceVolumeID ≠ req.sourceVolumeId →
            (CreateSnapshot cloud req).result
              = .error (.status .AlreadyExists
                  ("Snapshot " ++ req.name ++ " already exists for different volume ("
                    ++ s.sourceVolumeID ++ ")"))
            ∧ (CreateSnapshot cloud req).createInvoked = false))
      ∧ (cloud.getSnapshotByName req.name = .errNotFound →
          (CreateSnapshot cloud req).createInvoked = true
          ∧ ∀ s, cloud.createSnapshot req.sourceVolumeId
                { tags := [(SnapshotNameTagKey, req.name)] } = .ok s →
              (CreateSnapshot cloud req).result = newCreateSnapshotResponse s) := by
  intro cloud req hname hsrc
  constructor
  · intro s hfound
    constructor
    · intro hmatch
      unfold CreateSnapshot
      rw [if_neg hname, if_neg hsrc]
      simp only [hfound]
      rw [if_neg (by simp [hmatch])]
      refine ⟨rfl, rfl, ?_⟩
      intro ts hts
      unfold newCreateSnapshotResponse
      rw [hts]
      exact ⟨_, rfl, rfl, rfl⟩
    · intro hdiff
      unfold CreateSnapshot
      rw [if_neg hname, if_neg hsrc]
      simp only [hfound]
      rw [if_pos hdiff]
      exact ⟨rfl, rfl⟩
  · intro hnf
    unfold CreateSnapshot
    rw [if_neg hname, if_neg hsrc]
    simp only [hnf]
    constructor
    · split <;> rfl
    · intro s hcs
      simp only [hcs]

/-- Witness for C4: replaying an existing not-yet-ready snapshot of the same
source volume succeeds with the same snapshot identifier; a different source
volume is a conflict. -/
theorem createSnapshot_classification_witness :
    ("snap".length ≠ 0 ∧ "vol-1".length ≠ 0
      ∧ readySnap.sourceVolumeID = sampleSnapReq.sourceVolumeId
      ∧ TimestampProto readySnap.creationTime = .ok 1500000000)
  ∧ (∃ resp, (CreateSnapshot (constSnapCloud readySnap) sampleSnapReq).result = .ok resp
      ∧ resp.snapshot.snapshotId = readySnap.snapshotID
      ∧ resp.snapshot.readyToUse = readySnap.readyToUse)
  ∧ ((CreateSnapshot (constSnapCloud readySnap) sampleSnapReq).createInvoked = false)
  ∧ ((CreateSnapshot (constSnapCloud { readySnap with sourceVolumeID := "vol-9" })
        sampleSnapReq).result
      = .error (.status .AlreadyExists
          ("Snapshot " ++ sampleSnapReq.name ++ " already exists for different volume ("
            ++ "vol-9" ++ ")"))) := by
  have hm := ((createSnapshot_classification (constSnapCloud readySnap) sampleSnapReq
    (by decide) (by decide)).1 readySnap rfl).1 rfl
  have hd := ((createSnapshot_classification
    (constSnapCloud { readySnap with sourceVolumeID := "vol-9" }) sampleSnapReq
    (by decide) (by decide)).1 { readySnap with sourceVolumeID := "vol-9" } rfl).2
    (by decide)
  exact ⟨⟨by decide, by decide, rfl, rfl⟩, hm.2.2 1500000000 rfl, hm.2.1, hd.1⟩

/-! ## C9: timestamp-conversion failure -/

/-- C9 counterexample: a CreateSnapshot call that reaches response
translation with an unconvertible creation timestamp fails, but the error is
the raw conversion error returned without status wrapping
(`return nil, err`), not an Internal-coded status error. -/
theorem createSnapshot_timestamp_error_not_internal :
    (CreateSnapshot (constSnapCloud badSnap) sampleSnapReq).result
        = .error (.raw "timestamp out of range")
    ∧ isInternalError (CreateSnapshot (constSnapCloud badSnap) sampleSnapReq).result
        = false := by
  exact ⟨rfl, rfl⟩

/-- C9 (amended): for every CreateSnapshot call that reaches response
translation, failure to convert the snapshot's creation timestamp makes the
whole call fail and no snapshot descriptor is returned; the failure is the
raw conversion error, propagated without a gRPC status code — in particular
it is not classified as an internal error. -/
theorem createSnapshot_timestamp_failure_raw :
    ∀ (cloud : CloudSnapshots) (req : CreateSnapshotRequest) (s : Snapshot)
      (msg : String),
      req.name.length ≠ 0 → req.sourceVolumeId.length ≠ 0 →
      TimestampProto s.creationTime = .error msg →
      ((cloud.getSnapshotByName req.name = .found s
          ∧ s.sourceVolumeID = req.sourceVolumeId)
        ∨ (cloud.getSnapshotByName req.name = .errNotFound
            ∧ cloud.createSnapshot req.sourceVolumeId
                { tags := [(SnapshotNameTagKey, req.name)] } = .ok s)) →
      (CreateSnapshot cloud req).result = .error (.raw msg)
      ∧ isInternalError (CreateSnapshot cloud req).result = false := by
  intro cloud req s msg hname hsrc hts hcase
  have hres : (CreateSnapshot cloud req).result = newCreateSnapshotResponse s := by
    cases hcase with
    | inl hfound =>
      exact (((createSnapshot_classification cloud req hname hsrc).1 s hfound.1).1
        hfound.2).1
    | inr habsent =>
      exact ((createSnapshot_classification cloud req hname hsrc).2 habsent.1).2
        s habsent.2
  have hraw : newCreateSnapshotResponse s = .error (.raw msg) := by
    unfold newCreateSnapshotResponse
    rw [hts]
  rw [hres, hraw]
  exact ⟨rfl, rfl⟩

/-- Witness for C9 (amended): the concrete out-of-range snapshot record. -/
theorem createSnapshot_timestamp_failure_raw_witness :
    ("snap".length ≠ 0 ∧ "vol-1".length ≠ 0
      ∧ TimestampProto badSnap.creationTime = .error "timestamp out of range"
      ∧ (constSnapCloud badSnap).getSnapshotByName sampleSnapReq.name = .found badSnap
      ∧ badSnap.sourceVolumeID = sampleSnapReq.sourceVolumeId)
  ∧ (CreateSnapshot (constSnapCloud badSnap) sampleSnapReq).result
      = .error (.raw "timestamp out of range")
  ∧ isInternalError (CreateSnapshot (constSnapCloud badSnap) sampleSnapReq).result
      = false := by
  have h := createSnapshot_timestamp_failure_raw (constSnapCloud badSnap)
    sampleSnapReq badSnap "timestamp out of range" (by decide) (by decide) rfl
    (Or.inl ⟨rfl, rfl⟩)
  exact ⟨⟨by decide, by decide, rfl, rfl, rfl⟩, h.1, h.2⟩

end EbsCsi
